import Mathlib

/-!
Shallow embedding of the two entry points of the repository
(`sse_links_downloader.py` and `sse_links_mainboard_downloader.py`):
a fetch–normalize–deduplicate–persist pipeline for exchange disclosure
links.  Python strings are Lean `String`s; Python `dict.get` values are
`Option (Option String)` (`none` = key absent, `some none` = the key is
present with value `None`, `some (some s)` = the key holds string `s`);
a Python exception escaping a function is the `none` of an `Option`
result (or the `error` of an `Except`).
-/

deriving instance DecidableEq for Except

namespace SSE

/-- Python `str.strip()`: remove whitespace from both ends of the string
(modelled with `Char.isWhitespace`, which covers the ASCII whitespace
actually appearing in the data handled by the scripts). -/
def pyStrip (s : String) : String :=
  ⟨((s.data.dropWhile Char.isWhitespace).reverse.dropWhile Char.isWhitespace).reverse⟩

/-- Python `s.startswith(p)`: a literal string-prefix test. -/
def pyStartswith (s p : String) : Bool :=
  p.data.isPrefixOf s.data

/-- A value held under a key of a Python dict-like record: `none` when the
key is absent, `some none` when the key holds `None`, `some (some s)` when
the key holds the string `s`. -/
abbrev PyStrField := Option (Option String)

/-- Python `item.get(k, "").strip()` as written in `sse_links_downloader.py`
(lines 86–88): an absent key falls back to `""`, but a key holding `None`
makes `.strip()` raise an uncaught `AttributeError`, modelled as `none`. -/
def getStripOrRaise (v : PyStrField) : Option String :=
  match v with
  | none => some (pyStrip "")
  | some none => none
  | some (some s) => some (pyStrip s)

/-- Python `(item.get(k) or "").strip()` as written in
`sse_links_mainboard_downloader.py` (lines 121–123): both an absent key and
a `None` (or empty) value fall back to `""` before stripping. -/
def getOrEmptyStrip (v : PyStrField) : String :=
  match v with
  | none => pyStrip ""
  | some none => pyStrip ""
  | some (some s) => if s = "" then pyStrip "" else pyStrip s

/-- A raw report record returned by the query endpoint: an opaque mapping
with the three recognized keys. -/
structure RawRecord where
  TITLE : PyStrField
  SSEDATE : PyStrField
  URL : PyStrField
deriving DecidableEq

/-- A normalized output row (one line of the summary CSV body). -/
structure Row where
  code : String
  title : String
  date : String
  url : String
deriving DecidableEq

/-- Configuration constant `URL_PDF_BASE` (both scripts). -/
def URL_PDF_BASE : String := "https://static.sse.com.cn"

/-- Configuration constant `MAX_RETRIES` (both scripts). -/
def MAX_RETRIES : Nat := 3

/-- Configuration constant `START_YEAR` (both scripts). -/
def START_YEAR : Nat := 2022

/-- Configuration constant `END_YEAR` (both scripts). -/
def END_YEAR : Nat := 2023

/-- Configuration constant `CODES` (`sse_links_downloader.py`). -/
def CODES : List String := ["600000", "600519", "601318"]

/-- URL resolution, lines 94–97 resp. 129–132: a URL that does not start
with the four characters of "http" is prefixed with `URL_PDF_BASE`, any
other URL is passed through unchanged. -/
def resolve_pdf_url (relative_url : String) : String :=
  if ¬ pyStartswith relative_url "http" then URL_PDF_BASE ++ relative_url
  else relative_url

/-- The shared dedup-and-accumulate body of the per-record loop
(lines 90–113 resp. 125–147), after the three fields have been read:
skip on blank URL, resolve, skip on a URL already seen this year,
otherwise record the URL as seen and append the normalized row. -/
def processItemCore (code title date relative_url : String)
    (st : List String × List Row) : List String × List Row :=
  if relative_url = "" then st
  else if resolve_pdf_url relative_url ∈ st.1 then st
  else (resolve_pdf_url relative_url :: st.1,
    st.2 ++ [⟨code, title, date, resolve_pdf_url relative_url⟩])

/-- One iteration of the per-record loop of
`sse_links_mainboard_downloader.py` (lines 120–147). -/
def processItem (code : String) (st : List String × List Row)
    (item : RawRecord) : List String × List Row :=
  let title := getOrEmptyStrip item.TITLE
  let date := getOrEmptyStrip item.SSEDATE
  let relative_url := getOrEmptyStrip item.URL
  processItemCore code title date relative_url st

/-- One iteration of the per-record loop of `sse_links_downloader.py`
(lines 85–113); `none` models the uncaught `AttributeError` raised when a
field holds an explicit `None`. -/
def processItemV1 (code : String) (st : List String × List Row)
    (item : RawRecord) : Option (List String × List Row) := do
  let title ← getStripOrRaise item.TITLE
  let date ← getStripOrRaise item.SSEDATE
  let relative_url ← getStripOrRaise item.URL
  return processItemCore code title date relative_url st

/-- The per-code step of the driver loop (mainboard variant, lines
112–150): a propagated fetch failure is caught, logged and skipped; on
success every raw record is processed in order. -/
def processCode {ε : Type} (fetch : String → Except ε (List RawRecord))
    (st : List String × List Row) (code : String) : List String × List Row :=
  match fetch code with
  | .error _ => st
  | .ok reports => reports.foldl (fun s item => processItem code s item) st

/-- One year of the mainboard driver: fold the per-code step over the code
list starting from an empty dedup set and accumulator, and return the
accumulated rows. -/
def processYear {ε : Type} (fetch : String → Except ε (List RawRecord))
    (codes : List String) : List Row :=
  (codes.foldl (processCode fetch) ([], [])).2

/-- The per-code step of the driver loop of `sse_links_downloader.py`
(lines 77–115): fetch failures are caught and skipped, but the record loop
itself can raise (see `processItemV1`). -/
def processCodeV1 {ε : Type} (fetch : String → Except ε (List RawRecord))
    (st : List String × List Row) (code : String) :
    Option (List String × List Row) :=
  match fetch code with
  | .error _ => some st
  | .ok reports => reports.foldlM (fun s item => processItemV1 code s item) st

/-- One year of the `sse_links_downloader.py` driver; `none` models a run
aborted by an uncaught exception in the record loop. -/
def processYearV1 {ε : Type} (fetch : String → Except ε (List RawRecord))
    (codes : List String) : Option (List Row) :=
  (codes.foldlM (processCodeV1 fetch) ([], [])).map Prod.snd

/-- The fixed field order of the output CSV header (lines 122 resp. 157). -/
def csvHeader : List String := ["code", "title", "date", "url"]

/-- The CSV cells of one output row, in header order. -/
def rowFields (r : Row) : List String := [r.code, r.title, r.date, r.url]

/-- The year-end writer (lines 118–128 resp. 153–163): when at least one
row was accumulated, the year's file is written as a header line followed
by the rows; when none was, no file is created (`none`). -/
def writeYearCsv (summary_rows : List Row) : Option (List (List String)) :=
  if summary_rows.isEmpty then none
  else some (csvHeader :: summary_rows.map rowFields)

/-- The whole driver across the inclusive year range
`range(START_YEAR, END_YEAR + 1)`: each year is processed with a fresh
dedup set and accumulator and yields at most one output file. -/
def mainLoop {ε : Type} (fetch : Nat → String → Except ε (List RawRecord))
    (codes : List String) (startYear endYear : Nat) :
    List (Nat × Option (List (List String))) :=
  (List.range' startYear (endYear + 1 - startYear)).map
    (fun year => (year, writeYearCsv (processYear (fetch year) codes)))

/-- The body of `request_with_retry` (lines 29–40 resp. 60–71), run over
the remaining attempt numbers of `range(1, max_retries + 1)`.  `outcomes i`
is what the underlying `session.request` plus `raise_for_status` does on
attempt `i`.  The first component is the function's outcome (`none` models
the implicit `return None` when the loop body never runs); the second
collects the `time.sleep(2 * attempt)` durations in order. -/
def retryLoop {ε ρ : Type} (outcomes : Nat → Except ε ρ) (max_retries : Nat) :
    List Nat → Option (Except ε ρ) × List Nat
  | [] => (none, [])
  | attempt :: rest =>
    match outcomes attempt with
    | .ok resp => (some (.ok resp), [])
    | .error e =>
      if attempt = max_retries then (some (.error e), [])
      else
        let r := retryLoop outcomes max_retries rest
        (r.1, 2 * attempt :: r.2)

/-- `request_with_retry` (lines 29–40 resp. 60–71): iterate the attempt
body over `range(1, max_retries + 1)`. -/
def request_with_retry {ε ρ : Type} (outcomes : Nat → Except ε ρ)
    (max_retries : Nat) : Option (Except ε ρ) × List Nat :=
  retryLoop outcomes max_retries (List.range' 1 max_retries)

/-- The parsed JSON body of a query response: `result` is `none` when the
key is absent. -/
structure ApiResponse where
  result : Option (List RawRecord)

/-- Line 62 resp. 93: `data.get("result", [])`. -/
def extract_results (data : ApiResponse) : List RawRecord :=
  data.result.getD []

/-- Line 45 resp. 76: the f-string `f"{year}-01-01"`. -/
def begin_date (year : Nat) : String := toString year ++ "-01-01"

/-- Line 46 resp. 77: the f-string `f"{year}-12-31"`. -/
def end_date (year : Nat) : String := toString year ++ "-12-31"

/-- The query parameter dict built by `fetch_reports_for_year`
(lines 48–57 resp. 79–88), as an association list in source order. -/
def queryParams (code : String) (year : Nat) : List (String × String) :=
  [("isPagination", "false"),
   ("productId", code),
   ("keyWord", ""),
   ("securityType", "0101"),
   ("reportType2", "DQBG"),
   ("reportType", "YEARLY"),
   ("beginDate", begin_date year),
   ("endDate", end_date year)]

/-- `fetch_reports_for_year` (lines 43–64 resp. 74–95), with the
retry-wrapped request abstracted as a function of the query parameters:
a propagated request failure is passed through, a response has its
`result` list extracted. -/
def fetch_reports_for_year {ε : Type}
    (doRequest : List (String × String) → Except ε ApiResponse)
    (code : String) (year : Nat) : Except ε (List RawRecord) :=
  match doRequest (queryParams code year) with
  | .error e => .error e
  | .ok resp => .ok (extract_results resp)

/-- One row produced by `csv.DictReader` over the codes file, restricted
to the three recognized column names (the loader reads no others). -/
structure CsvRow where
  code : PyStrField
  «证券代码» : PyStrField
  stock_code : PyStrField
deriving DecidableEq

/-- Python `x or y` for `x` a `dict.get` result: `None` and the empty
string are falsy and fall through to `y`. -/
def pyOrStr (v : Option String) (y : String) : String :=
  match v with
  | none => y
  | some s => if s = "" then y else s

/-- The per-row expression of `load_codes_from_csv` (lines 50–53):
`(row.get("code") or row.get("证券代码") or row.get("stock_code") or "").strip()`. -/
def rowRawCode (row : CsvRow) : String :=
  pyStrip (pyOrStr row.code.join
    (pyOrStr row.«证券代码».join
      (pyOrStr row.stock_code.join "")))

/-- The row loop of `load_codes_from_csv` (lines 45–55): append each
row's code when it is non-empty, in file row order. -/
def load_codes_loop : List CsvRow → List String
  | [] => []
  | row :: rest =>
    if rowRawCode row = "" then load_codes_loop rest
    else rowRawCode row :: load_codes_loop rest

/-- `load_codes_from_csv` (lines 43–57): `none` input models a missing
file, on which `open` raises `FileNotFoundError` (modelled as `.error ()`,
uncaught in `main`); otherwise the row loop runs over the parsed rows. -/
def load_codes_from_csv : Option (List CsvRow) → Except Unit (List String)
  | none => .error ()
  | some rows => .ok (load_codes_loop rows)

/-- Spec-side description of the per-row extraction, following the claim's
words: the first value among the recognized columns `code`, `证券代码`,
`stock_code` that is present and non-empty, trimmed; `none` when the row
yields no value (no such column, or the trimmed value is empty). -/
def firstPresentNonEmpty : List PyStrField → Option String
  | [] => none
  | v :: rest =>
    match v.join with
    | some s => if s = "" then firstPresentNonEmpty rest else some s
    | none => firstPresentNonEmpty rest

/-- Spec-side row extraction for the loader claim (see
`firstPresentNonEmpty`). -/
def specRowCode (row : CsvRow) : Option String :=
  match firstPresentNonEmpty [row.code, row.«证券代码», row.stock_code] with
  | none => none
  | some s => if pyStrip s = "" then none else some (pyStrip s)

/-- Modelled from the claim's words for the URL-resolution claim: a URI
scheme prefix in the RFC 3986 sense, a letter followed by letters, digits,
`+`, `-` or `.`, terminated by a colon. -/
def schemeTail : List Char → Bool
  | [] => false
  | c :: rest =>
    if c = ':' then true
    else (c.isAlpha || c.isDigit || c = '+' || c = '-' || c = '.') && schemeTail rest

/-- Modelled from the claim's words: whether a string carries a URI scheme
prefix (see `schemeTail`). -/
def hasUriScheme (s : String) : Bool :=
  match s.data with
  | [] => false
  | c :: rest => c.isAlpha && schemeTail rest

/-! Helper lemmas shared by the claim theorems. -/

/-- Stripping the empty string yields the empty string. -/
theorem pyStrip_empty : pyStrip "" = "" := rfl

/-- Reading a field the mainboard way always yields the stripped underlying
string (with absent and `None` as the empty string). -/
theorem getOrEmptyStrip_eq (v : PyStrField) :
    getOrEmptyStrip v = pyStrip (((v.join).getD "")) := by
  rcases v with _ | (_ | s)
  · rfl
  · rfl
  · simp only [getOrEmptyStrip, Option.join, Option.getD]
    split
    · rename_i h; subst h; rfl
    · rfl

/-- The fixed PDF base makes any extension start with the literal
characters of "http". -/
theorem pyStartswith_base_append (u : String) :
    pyStartswith (URL_PDF_BASE ++ u) "http" = true := by
  have hdata : (URL_PDF_BASE ++ u).data = URL_PDF_BASE.data ++ u.data := rfl
  have hpre : "http".data <+: URL_PDF_BASE.data :=
    List.isPrefixOf_iff_prefix.1 (by decide)
  rw [pyStartswith, List.isPrefixOf_iff_prefix, hdata]
  exact hpre.trans (List.prefix_append _ _)

/-- Every resolved URL starts with the literal characters of "http". -/
theorem resolve_pdf_url_startsHttp (u : String) :
    pyStartswith (resolve_pdf_url u) "http" = true := by
  rw [resolve_pdf_url]
  split
  · exact pyStartswith_base_append u
  · rename_i h
    simpa using h

/-- Resolving twice is the same as resolving once. -/
theorem resolve_pdf_url_idem (u : String) :
    resolve_pdf_url (resolve_pdf_url u) = resolve_pdf_url u := by
  have h := resolve_pdf_url_startsHttp u
  rw [show resolve_pdf_url (resolve_pdf_url u) =
        if ¬ pyStartswith (resolve_pdf_url u) "http" then
          URL_PDF_BASE ++ resolve_pdf_url u
        else resolve_pdf_url u from rfl, h]
  simp

/-- A predicate preserved by each step of a left fold is preserved by the
whole fold. -/
theorem foldl_preserve {α σ : Type} (P : σ → Prop) (f : σ → α → σ)
    (hf : ∀ s a, P s → P (f s a)) :
    ∀ (l : List α) (s : σ), P s → P (l.foldl f s)
  | [], _, hs => hs
  | a :: l, s, hs => foldl_preserve P f hf l (f s a) (hf s a hs)

/-- A predicate preserved by each successful step of an `Option`-valued
left fold is preserved by the whole fold whenever it succeeds. -/
theorem foldlM_option_preserve {α σ : Type} (P : σ → Prop)
    (f : σ → α → Option σ)
    (hf : ∀ s a s', P s → f s a = some s' → P s') (l : List α) :
    ∀ (s s' : σ), P s → l.foldlM f s = some s' → P s' := by
  induction l with
  | nil =>
    intro s s' hs h
    simp only [List.foldlM_nil, Option.pure_def, Option.some.injEq] at h
    exact h ▸ hs
  | cons a l ih =>
    intro s s' hs h
    rw [List.foldlM_cons] at h
    cases hfa : f s a with
    | none => rw [hfa] at h; simp at h
    | some s1 =>
      rw [hfa] at h
      simp only [Option.bind_eq_bind, Option.some_bind] at h
      exact ih s1 s' (hf s a s1 hs hfa) h

/-- The invariant carried by the per-year state: every accumulated row's
URL is in the dedup set, and the accumulated URLs are pairwise distinct. -/
def GoodState (st : List String × List Row) : Prop :=
  (∀ r ∈ st.2, r.url ∈ st.1) ∧ (st.2.map Row.url).Nodup

/-- The initial per-year state satisfies the invariant. -/
theorem goodState_init : GoodState ([], []) := by
  constructor
  · intro r hr; cases hr
  · simp

/-- The dedup-and-accumulate step preserves the state invariant. -/
theorem goodState_processItemCore (code title date rel : String)
    (st : List String × List Row) (h : GoodState st) :
    GoodState (processItemCore code title date rel st) := by
  rw [processItemCore]
  split
  · exact h
  · split
    · exact h
    · rename_i hne hmem
      constructor
      · intro r hr
        rcases List.mem_append.1 hr with hr | hr
        · exact List.mem_cons_of_mem _ (h.1 r hr)
        · simp only [List.mem_singleton] at hr
          subst hr
          exact List.mem_cons_self _ _
      · rw [List.map_append, List.nodup_append]
        refine ⟨h.2, by simp, ?_⟩
        intro x hx hx2
        simp only [List.map_cons, List.map_nil, List.mem_singleton] at hx2
        subst hx2
        rcases List.mem_map.1 hx with ⟨r, hr, hrx⟩
        exact hmem (hrx ▸ h.1 r hr)

/-- The mainboard per-record step preserves the state invariant. -/
theorem goodState_processItem (code : String) (st : List String × List Row)
    (item : RawRecord) (h : GoodState st) :
    GoodState (processItem code st item) :=
  goodState_processItemCore _ _ _ _ _ h

/-- When the fixed-list per-record step does not raise, its result is a
dedup-and-accumulate step on the same state. -/
theorem processItemV1_eq_core (code : String) (st : List String × List Row)
    (item : RawRecord) (st' : List String × List Row)
    (h : processItemV1 code st item = some st') :
    ∃ t d u, st' = processItemCore code t d u st := by
  rcases item with ⟨T, S, U⟩
  rcases T with _ | (_ | t) <;> rcases S with _ | (_ | s) <;>
    rcases U with _ | (_ | u) <;>
    simp only [processItemV1, getStripOrRaise, Option.bind_eq_bind,
      Option.some_bind, Option.none_bind, Option.pure_def,
      Option.some.injEq, reduceCtorEq] at h <;>
    exact ⟨_, _, _, h.symm⟩

/-- The per-code step (mainboard) preserves the state invariant. -/
theorem goodState_processCode {ε : Type}
    (fetch : String → Except ε (List RawRecord))
    (st : List String × List Row) (code : String) (h : GoodState st) :
    GoodState (processCode fetch st code) := by
  rw [processCode]
  split
  · exact h
  · exact foldl_preserve GoodState _
      (fun s item hs => goodState_processItem code s item hs) _ st h

/-- The per-code step (fixed-list variant) preserves the state invariant
whenever it does not raise. -/
theorem goodState_processCodeV1 {ε : Type}
    (fetch : String → Except ε (List RawRecord))
    (st : List String × List Row) (code : String)
    (st' : List String × List Row) (h : GoodState st)
    (hrun : processCodeV1 fetch st code = some st') : GoodState st' := by
  rw [processCodeV1] at hrun
  split at hrun
  · cases hrun; exact h
  · exact foldlM_option_preserve GoodState _
      (fun s item s' hs hstep => by
        obtain ⟨t, d, u, rfl⟩ := processItemV1_eq_core code s item s' hstep
        exact goodState_processItemCore _ _ _ _ _ hs) _ st st' h hrun

/-- The accumulated state of a whole year satisfies the invariant
(mainboard variant). -/
theorem goodState_processYearState {ε : Type}
    (fetch : String → Except ε (List RawRecord)) (codes : List String) :
    GoodState (codes.foldl (processCode fetch) ([], [])) :=
  foldl_preserve GoodState _
    (fun s c hs => goodState_processCode fetch s c hs) codes _ goodState_init

/-- The accumulated state of a whole year satisfies the invariant when the
fixed-list variant completes without raising. -/
theorem goodState_processYearStateV1 {ε : Type}
    (fetch : String → Except ε (List RawRecord)) (codes : List String)
    (st' : List String × List Row)
    (h : codes.foldlM (processCodeV1 fetch) ([], []) = some st') :
    GoodState st' :=
  foldlM_option_preserve GoodState _
    (fun s c s' hs hstep => goodState_processCodeV1 fetch s c s' hs hstep)
    codes _ st' goodState_init h

/-- The URL-prefix invariant of the per-year state: every accumulated
row's URL starts with the literal characters of "http". -/
def HttpState (st : List String × List Row) : Prop :=
  ∀ r ∈ st.2, pyStartswith r.url "http" = true

/-- The dedup-and-accumulate step preserves the URL-prefix invariant. -/
theorem httpState_processItemCore (code title date rel : String)
    (st : List String × List Row) (h : HttpState st) :
    HttpState (processItemCore code title date rel st) := by
  rw [processItemCore]
  split
  · exact h
  · split
    · exact h
    · intro r hr
      rcases List.mem_append.1 hr with hr | hr
      · exact h r hr
      · simp only [List.mem_singleton] at hr
        subst hr
        exact resolve_pdf_url_startsHttp rel

/-- The per-code step (mainboard) preserves the URL-prefix invariant. -/
theorem httpState_processCode {ε : Type}
    (fetch : String → Except ε (List RawRecord))
    (st : List String × List Row) (code : String) (h : HttpState st) :
    HttpState (processCode fetch st code) := by
  rw [processCode]
  split
  · exact h
  · exact foldl_preserve HttpState _
      (fun s item hs => httpState_processItemCore _ _ _ _ s hs) _ st h

/-- The accumulated state of a whole year satisfies the URL-prefix
invariant (mainboard variant). -/
theorem httpState_processYearState {ε : Type}
    (fetch : String → Except ε (List RawRecord)) (codes : List String) :
    HttpState (codes.foldl (processCode fetch) ([], [])) :=
  foldl_preserve HttpState _
    (fun s c hs => httpState_processCode fetch s c hs) codes _
    (fun r hr => absurd hr (List.not_mem_nil r))

/-- The accumulated state of a whole year satisfies the URL-prefix
invariant when the fixed-list variant completes without raising. -/
theorem httpState_processYearStateV1 {ε : Type}
    (fetch : String → Except ε (List RawRecord)) (codes : List String)
    (st' : List String × List Row)
    (h : codes.foldlM (processCodeV1 fetch) ([], []) = some st') :
    HttpState st' := by
  refine foldlM_option_preserve HttpState _ ?_ codes _ st'
    (fun r hr => absurd hr (List.not_mem_nil r)) h
  intro s c s' hs hstep
  rw [processCodeV1] at hstep
  split at hstep
  · cases hstep; exact hs
  · exact foldlM_option_preserve HttpState _
      (fun s1 item s1' hs1 h1 => by
        obtain ⟨t, d, u, rfl⟩ := processItemV1_eq_core c s1 item s1' h1
        exact httpState_processItemCore _ _ _ _ _ hs1) _ s s' hs hstep

/-- Running the retry loop body over a block of attempt numbers that all
fail and are not the last allowed attempt: it sleeps `2 × attempt` for
each and continues with the remaining attempts. -/
theorem retryLoop_append_errors {ε ρ : Type} (outcomes : Nat → Except ε ρ)
    (M : Nat) (l1 l2 : List Nat)
    (h : ∀ a ∈ l1, a ≠ M ∧ ∃ e, outcomes a = .error e) :
    retryLoop outcomes M (l1 ++ l2) =
      ((retryLoop outcomes M l2).1,
        l1.map (fun a => 2 * a) ++ (retryLoop outcomes M l2).2) := by
  induction l1 with
  | nil => simp
  | cons a l ih =>
    obtain ⟨hne, e, he⟩ := h a (by simp)
    have ih' := ih (fun b hb => h b (by simp [hb]))
    simp only [List.cons_append, retryLoop, he, if_neg hne, List.append_eq,
      ih', List.map_cons]

/-- Splitting of the attempt range at the first success. -/
theorem range'_split_at (k M : Nat) (hk1 : 1 ≤ k) (hkM : k ≤ M) :
    List.range' 1 M = List.range' 1 (k - 1) ++ List.range' k (M - (k - 1)) := by
  have h1 : M = (M - (k - 1)) + (k - 1) := by omega
  calc List.range' 1 M = List.range' 1 ((M - (k - 1)) + (k - 1)) := by rw [← h1]
    _ = List.range' 1 (k - 1) ++ List.range' (1 + 1 * (k - 1)) (M - (k - 1)) :=
        (List.range'_append 1 (k - 1) (M - (k - 1)) 1).symm
    _ = List.range' 1 (k - 1) ++ List.range' k (M - (k - 1)) := by
        have h2 : 1 + 1 * (k - 1) = k := by omega
        rw [h2]

/-- The executor on a run whose first success is attempt `k`: the response
of attempt `k` is returned and one sleep of `2 × i` seconds was made after
each failed attempt `i < k`. -/
theorem request_with_retry_first_success {ε ρ : Type}
    (outcomes : Nat → Except ε ρ) (M k : Nat) (r : ρ)
    (hk1 : 1 ≤ k) (hkM : k ≤ M)
    (hfail : ∀ i, 1 ≤ i → i < k → ∃ e, outcomes i = .error e)
    (hok : outcomes k = .ok r) :
    request_with_retry outcomes M =
      (some (.ok r), (List.range' 1 (k - 1)).map (fun i => 2 * i)) := by
  rw [request_with_retry, range'_split_at k M hk1 hkM, retryLoop_append_errors]
  · have hrest : M - (k - 1) = (M - k) + 1 := by omega
    rw [hrest, List.range'_succ]
    simp [retryLoop, hok]
  · intro a ha
    rw [List.mem_range'_1] at ha
    obtain ⟨e, he⟩ := hfail a ha.1 (by omega)
    exact ⟨by omega, e, he⟩

/-- The executor on a run where every allowed attempt fails: the final
attempt's failure is propagated and one sleep of `2 × i` seconds was made
after each failed attempt except the last. -/
theorem request_with_retry_all_fail {ε ρ : Type}
    (outcomes : Nat → Except ε ρ) (M : Nat) (eM : ε) (hM : 1 ≤ M)
    (hfail : ∀ i, 1 ≤ i → i < M → ∃ e, outcomes i = .error e)
    (hlast : outcomes M = .error eM) :
    request_with_retry outcomes M =
      (some (.error eM), (List.range' 1 (M - 1)).map (fun i => 2 * i)) := by
  rw [request_with_retry, range'_split_at M M hM (le_refl M), retryLoop_append_errors]
  · have hrest : M - (M - 1) = 1 := by omega
    rw [hrest, List.range'_one]
    simp [retryLoop, hlast]
  · intro a ha
    rw [List.mem_range'_1] at ha
    obtain ⟨e, he⟩ := hfail a ha.1 (by omega)
    exact ⟨by omega, e, he⟩

/-- The recorded sleep durations are strictly increasing. -/
theorem sleeps_strict_increasing (n : Nat) :
    ((List.range' 1 n).map (fun i => 2 * i)).Pairwise (· < ·) :=
  List.Pairwise.map _ (fun a b h => by omega) (List.pairwise_lt_range' 1 n)

/-- A code whose fetch fails contributes nothing to the mainboard per-code
fold. -/
theorem processCode_error {ε : Type}
    (fetch : String → Except ε (List RawRecord))
    (st : List String × List Row) (c : String) (e : ε)
    (h : fetch c = .error e) : processCode fetch st c = st := by
  rw [processCode, h]

/-- A code whose fetch fails contributes nothing to the fixed-list
per-code fold and does not raise. -/
theorem processCodeV1_error {ε : Type}
    (fetch : String → Except ε (List RawRecord))
    (st : List String × List Row) (c : String) (e : ε)
    (h : fetch c = .error e) : processCodeV1 fetch st c = some st := by
  rw [processCodeV1, h]

/-- The spec-side row extraction agrees with the loader's per-row
expression. -/
theorem specRowCode_eq (row : CsvRow) :
    specRowCode row =
      if rowRawCode row = "" then none else some (rowRawCode row) := by
  rcases row with ⟨a, b, c⟩
  rcases a with _ | (_ | sa) <;> rcases b with _ | (_ | sb) <;>
    rcases c with _ | (_ | sc) <;>
    simp only [specRowCode, rowRawCode, firstPresentNonEmpty, pyOrStr,
      Option.join, Option.bind, id] <;>
    split_ifs <;> simp_all [pyStrip_empty]

/-- The loader's row loop is the order-preserving collection of the
spec-side row extraction. -/
theorem load_codes_loop_eq_filterMap (rows : List CsvRow) :
    load_codes_loop rows = rows.filterMap specRowCode := by
  induction rows with
  | nil => rfl
  | cons row rest ih =>
    by_cases h : rowRawCode row = ""
    · simp [load_codes_loop, List.filterMap_cons, specRowCode_eq row, h, ih]
    · simp [load_codes_loop, List.filterMap_cons, specRowCode_eq row, h, ih]

/-- Every code produced by the loader's row loop is non-empty. -/
theorem load_codes_loop_ne_empty (rows : List CsvRow) :
    ∀ c ∈ load_codes_loop rows, c ≠ "" := by
  intro c hc
  rw [load_codes_loop_eq_filterMap] at hc
  rcases List.mem_filterMap.1 hc with ⟨row, _, hrow⟩
  rw [specRowCode_eq] at hrow
  by_cases h : rowRawCode row = ""
  · rw [if_pos h] at hrow; cases hrow
  · rw [if_neg h] at hrow; cases hrow; exact h

/-! The claim theorems. -/

/-- C1: for every year processed and every list of security codes, the
output table for that year contains no two rows with the same `url`: the
dedup set is consulted before each row is emitted and is shared across all
codes of the year (global per-year dedup), and each year of the driver
starts from a fresh dedup set.  Stated for both entry-point variants, and
for every per-year table the driver writes. -/
theorem claim1_per_year_urls_nodup {ε : Type}
    (fetch : String → Except ε (List RawRecord)) (codes : List String) :
    ((processYear fetch codes).map Row.url).Nodup ∧
    (∀ rows, processYearV1 fetch codes = some rows →
      (rows.map Row.url).Nodup) ∧
    (∀ startYear endYear p,
      p ∈ mainLoop (fun _ => fetch) codes startYear endYear →
      ∀ table, p.2 = some table →
        ∃ rows : List Row, table = csvHeader :: rows.map rowFields ∧
          (rows.map Row.url).Nodup) := by
  refine ⟨(goodState_processYearState fetch codes).2, ?_, ?_⟩
  · intro rows h
    rw [processYearV1] at h
    cases hst : codes.foldlM (processCodeV1 fetch) ([], []) with
    | none => rw [hst] at h; cases h
    | some st' =>
      rw [hst] at h
      cases h
      exact (goodState_processYearStateV1 fetch codes st' hst).2
  · intro startYear endYear p hp table htable
    rw [mainLoop] at hp
    rcases List.mem_map.1 hp with ⟨year, _, rfl⟩
    simp only at htable
    rw [writeYearCsv] at htable
    split at htable
    · cases htable
    · cases htable
      exact ⟨processYear fetch codes, rfl,
        (goodState_processYearState fetch codes).2⟩

/-- C1 witness: a concrete run over two codes whose fetches return the
same document URL keeps a single row. -/
theorem claim1_witness :
    (([⟨"600000", "t", "2022-01-01", "https://static.sse.com.cn/a.pdf"⟩] :
      List Row).map Row.url).Nodup :=
  (claim1_per_year_urls_nodup
      (fun _ => Except.ok
        [⟨some (some "t"), some (some "2022-01-01"), some (some "/a.pdf")⟩] :
        String → Except Unit (List RawRecord))
      ["600000", "600519"]).2.1
    [⟨"600000", "t", "2022-01-01", "https://static.sse.com.cn/a.pdf"⟩]
    (by decide)

/-- C2 counterexample: the claim's pass-through condition of "already
carries a scheme" does not match the code.  The URL "ftp://a.pdf" carries
a URI scheme but is not returned unchanged, and "httpdocs/a.pdf" carries
no scheme but is returned unchanged rather than being rewritten. -/
theorem claim2_counterexample_scheme :
    hasUriScheme "ftp://a.pdf" = true ∧
    resolve_pdf_url "ftp://a.pdf" ≠ "ftp://a.pdf" ∧
    hasUriScheme "httpdocs/a.pdf" = false ∧
    resolve_pdf_url "httpdocs/a.pdf" = "httpdocs/a.pdf" := by decide

/-- C2 (amended): for every raw URL, if it does not begin with the literal
prefix "http" it is rewritten to the fixed PDF base concatenated with the
fragment, and if it begins with "http" it is returned unchanged; resolution
is idempotent, so resolving an already-resolved URL yields the same URL. -/
theorem claim2_resolution_prefix_idem (u : String) :
    (pyStartswith u "http" = false →
      resolve_pdf_url u = URL_PDF_BASE ++ u) ∧
    (pyStartswith u "http" = true → resolve_pdf_url u = u) ∧
    resolve_pdf_url (resolve_pdf_url u) = resolve_pdf_url u := by
  refine ⟨?_, ?_, resolve_pdf_url_idem u⟩
  · intro h
    rw [resolve_pdf_url, if_pos]
    simp [h]
  · intro h
    rw [resolve_pdf_url, if_neg]
    simp [h]

/-- C2 witness: both branches at concrete inputs, and idempotence on the
result of a concrete resolution. -/
theorem claim2_witness :
    resolve_pdf_url "/a.pdf" = URL_PDF_BASE ++ "/a.pdf" ∧
    resolve_pdf_url "http://www.sse.com.cn/x.pdf" =
      "http://www.sse.com.cn/x.pdf" ∧
    resolve_pdf_url (resolve_pdf_url "/a.pdf") = resolve_pdf_url "/a.pdf" :=
  ⟨(claim2_resolution_prefix_idem "/a.pdf").1 (by decide),
   (claim2_resolution_prefix_idem "http://www.sse.com.cn/x.pdf").2.1
     (by decide),
   (claim2_resolution_prefix_idem "/a.pdf").2.2⟩

/-- C3 counterexample: in `sse_links_downloader.py`, a record whose URL
field holds an explicit `None` is not silently skipped: `None.strip()`
raises an uncaught `AttributeError` (result `none`), instead of leaving
the state unchanged as the claim requires. -/
theorem claim3_counterexample_none_url :
    processItemV1 "600000" ([], [])
      ⟨some (some "t"), some (some "2022-03-01"), some none⟩ = none ∧
    processItemV1 "600000" ([], [])
      ⟨some (some "t"), some (some "2022-03-01"), some none⟩ ≠
      some ([], []) := by decide

/-- C3 (amended): a raw record whose URL field is missing, empty or
whitespace-only is silently skipped by both variants — it contributes no
row, is not added to the dedup set, and raises no error — regardless of
its title and date values; a URL field holding an explicit `None` is
skipped only by the mainboard variant (in the fixed-list variant it
raises, and so do `None` title or date values there). -/
theorem claim3_blank_url_skipped (code : String)
    (st : List String × List Row) (item : RawRecord) :
    ((item.URL = none ∨ item.URL = some none ∨
        ∃ u, item.URL = some (some u) ∧ pyStrip u = "") →
      processItem code st item = st) ∧
    (item.TITLE ≠ some none → item.SSEDATE ≠ some none →
      (item.URL = none ∨ ∃ u, item.URL = some (some u) ∧ pyStrip u = "") →
      processItemV1 code st item = some st) := by
  constructor
  · intro h
    have hurl : getOrEmptyStrip item.URL = "" := by
      rcases h with h | h | ⟨u, h, hu⟩
      · rw [h]; rfl
      · rw [h]; rfl
      · rw [h, getOrEmptyStrip_eq]
        simpa using hu
    rw [processItem, hurl, processItemCore, if_pos rfl]
  · intro hT hS h
    obtain ⟨t, ht⟩ : ∃ t, getStripOrRaise item.TITLE = some t := by
      rcases hTv : item.TITLE with _ | (_ | s)
      · exact ⟨_, rfl⟩
      · exact absurd hTv hT
      · exact ⟨_, rfl⟩
    obtain ⟨d, hd⟩ : ∃ d, getStripOrRaise item.SSEDATE = some d := by
      rcases hSv : item.SSEDATE with _ | (_ | s)
      · exact ⟨_, rfl⟩
      · exact absurd hSv hS
      · exact ⟨_, rfl⟩
    have hurl : getStripOrRaise item.URL = some "" := by
      rcases h with h | ⟨u, h, hu⟩ <;> rw [h]
      · rfl
      · rw [getStripOrRaise, hu]
    rw [processItemV1]
    simp only [ht, hd, hurl, Option.bind_eq_bind, Option.some_bind,
      Option.pure_def, Option.some.injEq]
    rw [processItemCore, if_pos rfl]

/-- C3 witness: a record with a whitespace-only URL is skipped by both
variants at a concrete state. -/
theorem claim3_witness :
    processItem "600000" (["u"], [])
      ⟨some (some "t"), some (some "2022-03-01"), some (some "   ")⟩ =
      (["u"], []) ∧
    processItemV1 "600000" (["u"], [])
      ⟨some (some "t"), some (some "2022-03-01"), some (some "   ")⟩ =
      some (["u"], []) :=
  ⟨(claim3_blank_url_skipped "600000" (["u"], [])
      ⟨some (some "t"), some (some "2022-03-01"), some (some "   ")⟩).1
      (Or.inr (Or.inr ⟨"   ", rfl, by decide⟩)),
   (claim3_blank_url_skipped "600000" (["u"], [])
      ⟨some (some "t"), some (some "2022-03-01"), some (some "   ")⟩).2
      (by decide) (by decide) (Or.inr ⟨"   ", rfl, by decide⟩)⟩

/-- C4: the retry-wrapped executor.  If attempt `k` (with
`1 ≤ k ≤ max_retries`) is the first success, the executor returns that
attempt's response unmodified having slept `2 × i` seconds after each
failed attempt `i < k` (the sleeps are strictly increasing); if all
`max_retries` attempts fail, it sleeps after every failed attempt except
the last and propagates the final attempt's failure. -/
theorem claim4_retry_behavior {ε ρ : Type} (outcomes : Nat → Except ε ρ)
    (M k : Nat) (r : ρ) (eM : ε) :
    (1 ≤ k → k ≤ M →
      (∀ i, 1 ≤ i → i < k → ∃ e, outcomes i = .error e) →
      outcomes k = .ok r →
      request_with_retry outcomes M =
        (some (.ok r), (List.range' 1 (k - 1)).map (fun i => 2 * i)) ∧
      ((List.range' 1 (k - 1)).map (fun i => 2 * i)).Pairwise (· < ·)) ∧
    (1 ≤ M →
      (∀ i, 1 ≤ i → i < M → ∃ e, outcomes i = .error e) →
      outcomes M = .error eM →
      request_with_retry outcomes M =
        (some (.error eM), (List.range' 1 (M - 1)).map (fun i => 2 * i)) ∧
      ((List.range' 1 (M - 1)).map (fun i => 2 * i)).Pairwise (· < ·)) :=
  ⟨fun h1 h2 h3 h4 =>
    ⟨request_with_retry_first_success outcomes M k r h1 h2 h3 h4,
     sleeps_strict_increasing (k - 1)⟩,
   fun h1 h2 h3 =>
    ⟨request_with_retry_all_fail outcomes M eM h1 h2 h3,
     sleeps_strict_increasing (M - 1)⟩⟩

/-- C4 witness: with three allowed attempts, failures on attempts 1 and 2
and a success on attempt 3, the successful response is returned and the
sleeps were 2 then 4 seconds; a run failing all three attempts propagates
the final failure after the same sleeps. -/
theorem claim4_witness :
    (request_with_retry
        (fun i => if i < 3 then Except.error () else Except.ok 42) 3 =
      (some (Except.ok 42), [2, 4]) ∧
      ([2, 4] : List Nat).Pairwise (· < ·)) ∧
    (request_with_retry (fun _ => (Except.error "boom" : Except String Nat)) 3 =
      (some (Except.error "boom"), [2, 4]) ∧
      ([2, 4] : List Nat).Pairwise (· < ·)) :=
  ⟨(claim4_retry_behavior
      (fun i => if i < 3 then Except.error () else Except.ok 42) 3 3 42 ()).1
      (by decide) (by decide)
      (fun i h1 h2 => ⟨(), by interval_cases i <;> rfl⟩) (by decide),
   (claim4_retry_behavior
      (fun _ => (Except.error "boom" : Except String Nat)) 3 3 0 "boom").2
      (by decide)
      (fun i h1 h2 => ⟨"boom", rfl⟩) rfl⟩

/-- C5: a security code whose per-year fetch propagates a failure
contributes zero rows and the driver continues with the next code — in
both variants, removing the failing code from the list leaves the year's
processing unchanged, and the failure aborts nothing. -/
theorem claim5_fetch_failure_isolated {ε : Type}
    (fetch : String → Except ε (List RawRecord))
    (l1 l2 : List String) (c : String) (e : ε) (h : fetch c = .error e) :
    processYear fetch (l1 ++ c :: l2) = processYear fetch (l1 ++ l2) ∧
    processYearV1 fetch (l1 ++ c :: l2) = processYearV1 fetch (l1 ++ l2) := by
  constructor
  · rw [processYear, processYear, List.foldl_append, List.foldl_append,
      List.foldl_cons, processCode_error fetch _ c e h]
  · have herr : ∀ st, processCodeV1 fetch st c = some st :=
      fun st => processCodeV1_error fetch st c e h
    rw [processYearV1, processYearV1, List.foldlM_append, List.foldlM_append]
    simp only [List.foldlM_cons, herr, Option.bind_eq_bind, Option.some_bind]

/-- A concrete fetch oracle for the C5 witness: one code fails after retry
exhaustion, the others return one record. -/
def fetchW5 : String → Except Unit (List RawRecord) := fun c =>
  if c = "bad" then .error ()
  else .ok [⟨some (some "t"), some (some "2022-04-30"), some (some "/a.pdf")⟩]

/-- C5 witness: dropping the failing code from the list leaves both
variants' year output unchanged on a concrete run. -/
theorem claim5_witness :
    processYear fetchW5 (["600000"] ++ "bad" :: ["600519"]) =
      processYear fetchW5 (["600000"] ++ ["600519"]) ∧
    processYearV1 fetchW5 (["600000"] ++ "bad" :: ["600519"]) =
      processYearV1 fetchW5 (["600000"] ++ ["600519"]) :=
  claim5_fetch_failure_isolated fetchW5 ["600000"] ["600519"] "bad" ()
    (by decide)

/-- C6: a year in which zero records were accumulated produces no output
file, while a year with at least one record produces a file whose first
line is the header row; and every year of the inclusive range is
processed, so an empty year is followed by the next year's entry. -/
theorem claim6_empty_year_no_file {ε : Type}
    (fetch : Nat → String → Except ε (List RawRecord)) (codes : List String)
    (startYear endYear year : Nat) (rows : List Row) :
    (rows = [] → writeYearCsv rows = none) ∧
    (rows ≠ [] → writeYearCsv rows = some (csvHeader :: rows.map rowFields)) ∧
    (startYear ≤ year → year ≤ endYear →
      (year, writeYearCsv (processYear (fetch year) codes)) ∈
        mainLoop fetch codes startYear endYear) := by
  refine ⟨?_, ?_, ?_⟩
  · intro h; subst h; rfl
  · intro h
    rw [writeYearCsv]
    split
    · rename_i hemp
      exact absurd (List.isEmpty_iff.1 hemp) h
    · rfl
  · intro h1 h2
    rw [mainLoop]
    exact List.mem_map.2 ⟨year, List.mem_range'_1.2 ⟨h1, by omega⟩, rfl⟩

/-- C6 witness: an endpoint returning zero records for every code yields
no file for 2022 yet 2022 still contributes its entry to the run; a
nonempty accumulation yields a file led by the header. -/
theorem claim6_witness :
    writeYearCsv [] = none ∧
    writeYearCsv [⟨"600000", "t", "2022-01-01", "u"⟩] =
      some (csvHeader ::
        ([⟨"600000", "t", "2022-01-01", "u"⟩] : List Row).map rowFields) ∧
    (2022, writeYearCsv
        (processYear ((fun _ _ => Except.ok [] :
          Nat → String → Except Unit (List RawRecord)) 2022) ["600000"])) ∈
      mainLoop (fun _ _ => Except.ok [] :
        Nat → String → Except Unit (List RawRecord)) ["600000"] 2022 2023 :=
  ⟨(claim6_empty_year_no_file
      (fun _ _ => Except.ok [] : Nat → String → Except Unit (List RawRecord))
      ["600000"] 2022 2023 2022 []).1 rfl,
   (claim6_empty_year_no_file
      (fun _ _ => Except.ok [] : Nat → String → Except Unit (List RawRecord))
      ["600000"] 2022 2023 2022 [⟨"600000", "t", "2022-01-01", "u"⟩]).2.1
      (by decide),
   (claim6_empty_year_no_file
      (fun _ _ => Except.ok [] : Nat → String → Except Unit (List RawRecord))
      ["600000"] 2022 2023 2022 []).2.2 (by decide) (by decide)⟩

/-- C7: the per-security, per-year fetcher returns exactly the list under
the `result` key of the parsed response, an absent key yields the empty
list rather than an error, a request failure is propagated unchanged, and
the query parameters span the full calendar year from `YYYY-01-01` to
`YYYY-12-31`. -/
theorem claim7_fetch_result_extraction {ε : Type}
    (doRequest : List (String × String) → Except ε ApiResponse)
    (code : String) (year : Nat) (resp : ApiResponse) :
    (doRequest (queryParams code year) = .ok resp →
      fetch_reports_for_year doRequest code year =
        .ok (resp.result.getD [])) ∧
    (resp.result = none → extract_results resp = []) ∧
    (∀ e, doRequest (queryParams code year) = .error e →
      fetch_reports_for_year doRequest code year = .error e) ∧
    ("beginDate", begin_date year) ∈ queryParams code year ∧
    ("endDate", end_date year) ∈ queryParams code year ∧
    begin_date year = toString year ++ "-01-01" ∧
    end_date year = toString year ++ "-12-31" := by
  refine ⟨?_, ?_, ?_, ?_, ?_, rfl, rfl⟩
  · intro h; rw [fetch_reports_for_year, h]; rfl
  · intro h; rw [extract_results, h]; rfl
  · intro e h; rw [fetch_reports_for_year, h]
  · simp [queryParams]
  · simp [queryParams]

/-- C7 witness: a concrete response with one record under `result` is
returned as that record list, and a response without the key yields the
empty list. -/
theorem claim7_witness :
    fetch_reports_for_year
      ((fun _ => Except.ok ⟨some [⟨some (some "t"), none, none⟩]⟩) :
        List (String × String) → Except Unit ApiResponse) "600000" 2022 =
      .ok [⟨some (some "t"), none, none⟩] ∧
    extract_results ⟨none⟩ = [] :=
  ⟨(claim7_fetch_result_extraction
      ((fun _ => Except.ok ⟨some [⟨some (some "t"), none, none⟩]⟩) :
        List (String × String) → Except Unit ApiResponse) "600000" 2022
      ⟨some [⟨some (some "t"), none, none⟩]⟩).1 rfl,
   (claim7_fetch_result_extraction
      ((fun _ => Except.ok ⟨some [⟨some (some "t"), none, none⟩]⟩) :
        List (String × String) → Except Unit ApiResponse) "600000" 2022
      ⟨none⟩).2.1 rfl⟩

/-- C8 counterexample: the two variants do not read fields alike.  In
`sse_links_downloader.py` a record whose `TITLE` holds an explicit `None`
makes the record loop raise an uncaught `AttributeError` (result `none`),
while the mainboard variant treats the same record's title as the empty
string and emits its row. -/
theorem claim8_counterexample_none_title :
    processItemV1 "600000" ([], [])
      ⟨some none, some (some "2022-03-01"), some (some "/a.pdf")⟩ = none ∧
    processItem "600000" ([], [])
      ⟨some none, some (some "2022-03-01"), some (some "/a.pdf")⟩ =
      (["https://static.sse.com.cn/a.pdf"],
       [⟨"600000", "", "2022-03-01", "https://static.sse.com.cn/a.pdf"⟩]) := by
  decide

/-- C8 (amended): the mainboard variant reads `TITLE`, `SSEDATE` and `URL`
treating a missing key and an explicit `None` value alike as the empty
string and trims surrounding whitespace from each value before further
processing; the fixed-list variant treats only a missing key as the empty
string — an explicit `None` value raises an uncaught error instead of
being read as empty. -/
theorem claim8_field_reading (s : String) :
    getOrEmptyStrip none = "" ∧
    getOrEmptyStrip (some none) = "" ∧
    getOrEmptyStrip (some (some s)) = pyStrip s ∧
    getStripOrRaise none = some "" ∧
    getStripOrRaise (some none) = none ∧
    getStripOrRaise (some (some s)) = some (pyStrip s) ∧
    (∀ code st item, processItem code st item =
      processItemCore code (getOrEmptyStrip item.TITLE)
        (getOrEmptyStrip item.SSEDATE) (getOrEmptyStrip item.URL) st) := by
  refine ⟨rfl, rfl, ?_, rfl, rfl, rfl, fun code st item => rfl⟩
  rw [getOrEmptyStrip_eq]
  rfl

/-- C9 counterexample: a missing codes file does not yield an empty code
sequence — `open` raises `FileNotFoundError`, which nothing in `main`
catches, so the loader propagates a failure instead of returning `[]`. -/
theorem claim9_counterexample_missing_source :
    load_codes_from_csv none = Except.error () ∧
    load_codes_from_csv none ≠ Except.ok [] := by decide

/-- C9 (amended): the loader returns, in file row order, the first
non-empty value found among the recognized column names (`code`,
`证券代码`, `stock_code`) of each row trimmed of whitespace, skipping rows
that yield no value; every returned code is non-empty, duplicates in the
source are kept (the extraction is a per-row `filterMap`), and an empty
source yields an empty sequence — but a missing source raises an error
that aborts the run rather than yielding an empty sequence. -/
theorem claim9_loader_contract (rows : List CsvRow) :
    load_codes_from_csv (some rows) =
      Except.ok (rows.filterMap specRowCode) ∧
    (∀ c ∈ load_codes_loop rows, c ≠ "") ∧
    load_codes_from_csv (some []) = Except.ok [] ∧
    load_codes_from_csv none = Except.error () := by
  refine ⟨?_, load_codes_loop_ne_empty rows, rfl, rfl⟩
  rw [load_codes_from_csv, load_codes_loop_eq_filterMap]

/-- C9 witness: a concrete file whose rows carry a padded `code` value, a
`证券代码` fallback, a whitespace-only row and a duplicate: codes come out
trimmed, in row order, with the duplicate kept and the blank row skipped. -/
theorem claim9_witness :
    load_codes_from_csv (some
      [⟨some (some " 600000 "), none, none⟩,
       ⟨some none, some (some "600004"), none⟩,
       ⟨some (some "  "), none, some (some "600006")⟩,
       ⟨some (some "600000"), none, none⟩]) =
      Except.ok ["600000", "600004", "600000"] ∧
    ("600000" : String) ≠ "" := by
  have h := claim9_loader_contract
    [⟨some (some " 600000 "), none, none⟩,
     ⟨some none, some (some "600004"), none⟩,
     ⟨some (some "  "), none, some (some "600006")⟩,
     ⟨some (some "600000"), none, none⟩]
  exact ⟨h.1, h.2.1 "600000" (by decide)⟩

/-- C10: the pass-through condition of URL resolution is a literal
string-prefix test for the four characters of "http", not a parse of a URL
scheme: every URL beginning with "http" — including the non-absolute
"httpdocs/a.pdf" — is returned unchanged, every resolution either passes
the URL through or prefixes it with the fixed base, and every url value
emitted to a year's output begins with "http", in both variants. -/
theorem claim10_http_literal_test {ε : Type}
    (fetch : String → Except ε (List RawRecord)) (codes : List String)
    (u : String) :
    (pyStartswith u "http" = true → resolve_pdf_url u = u) ∧
    resolve_pdf_url "httpdocs/a.pdf" = "httpdocs/a.pdf" ∧
    pyStartswith (resolve_pdf_url u) "http" = true ∧
    (resolve_pdf_url u = u ∨ resolve_pdf_url u = URL_PDF_BASE ++ u) ∧
    (∀ r ∈ processYear fetch codes, pyStartswith r.url "http" = true) ∧
    (∀ rows, processYearV1 fetch codes = some rows →
      ∀ r ∈ rows, pyStartswith r.url "http" = true) := by
  refine ⟨?_, by decide, resolve_pdf_url_startsHttp u, ?_, ?_, ?_⟩
  · intro h
    rw [resolve_pdf_url, if_neg]
    simp [h]
  · rw [resolve_pdf_url]
    split
    · exact Or.inr rfl
    · exact Or.inl rfl
  · exact httpState_processYearState fetch codes
  · intro rows h
    rw [processYearV1] at h
    cases hst : codes.foldlM (processCodeV1 fetch) ([], []) with
    | none => rw [hst] at h; cases h
    | some st' =>
      rw [hst] at h
      cases h
      exact httpState_processYearStateV1 fetch codes st' hst

/-- C10 witness: a concrete run whose endpoint returns one absolute and
one relative URL emits only urls beginning with "http", and the literal
prefix pass-through fires on a concrete absolute URL. -/
theorem claim10_witness :
    resolve_pdf_url "http://www.sse.com.cn/a.pdf" =
      "http://www.sse.com.cn/a.pdf" ∧
    pyStartswith
      (Row.url ⟨"600000", "t", "2022-01-01",
        "https://static.sse.com.cn/b.pdf"⟩) "http" = true :=
  ⟨(claim10_http_literal_test
      (fun _ => (Except.ok [] : Except Unit (List RawRecord))) []
      "http://www.sse.com.cn/a.pdf").1 (by decide),
   (claim10_http_literal_test
      (fun _ => Except.ok
        [⟨some (some "t"), some (some "2022-01-01"), some (some "/b.pdf")⟩,
         ⟨some (some "t"), some (some "2022-01-01"),
          some (some "https://static.sse.com.cn/b.pdf")⟩] :
        String → Except Unit (List RawRecord)) ["600000"] "x").2.2.2.2.1
      ⟨"600000", "t", "2022-01-01", "https://static.sse.com.cn/b.pdf"⟩
      (by decide)⟩

end SSE
